import Mathlib

/-!
Verification of the adaptive task-planning engine of the reflection backend.

The definitions below are a shallow embedding of the TypeScript source:

* `calculateAdaptivePlan`, `generateTasks`, `getFallbackTasks`
  (src/src/ai/ai.service.ts), and
* `calculateTaskParameters`, `getTodayTasks`, `generateTasksForToday`,
  `saveTasks` (src/src/goal-tasks/goal-tasks.service.ts).

Modelling conventions:

* A JavaScript `Date` is its millisecond timestamp, an integer.  The
  grouping key produced by `date.toISOString().split('T')[0]` is modelled by
  the floor-division day index `dayKey`; for every date representable by a
  JS `Date` the lexicographic order of the ISO date strings coincides with
  the numeric order of the day indices, and two dates share an ISO date
  string exactly when they share a day index (UTC convention, which is the
  timezone convention the spec fixes).
* JavaScript numbers that can be `NaN` on the paths the claims exercise are
  modelled as `Option ℤ` / `Option ℚ` with `none` standing for `NaN`;
  `Math.floor`/`Math.ceil`/`Math.round`/`Math.max`/`Math.min` propagate
  `none` exactly as they propagate `NaN`.  The only division that can see a
  zero denominator in the plan calculator is
  `recentTasks.reduce(...) / recentTasks.length`, whose numerator is then
  also `0`, so `0/0 = NaN` is the only non-finite value that can arise.
  All other numeric values in the engine stay finite rationals (ratios of
  list lengths) or integers, so ℚ/ℤ model them exactly.
* `Math.round x` is `⌊x + 1/2⌋` (JS rounds half-up).
-/

namespace Reflection

/-- Milliseconds per calendar day; `addDays`/`subtractDays` move timestamps
by whole multiples of this under the UTC convention. -/
def dayMs : ℤ := 86400000

/-- Day index of a timestamp: the grouping key
`date.toISOString().split('T')[0]` of the source, as an integer. -/
def dayKey (ms : ℤ) : ℤ := Int.fdiv ms dayMs

/-- Task status stored in the `DailyTask` table; the DTO layer restricts
updates to exactly these three strings. -/
inductive TaskStatus
  | PENDING
  | COMPLETED
  | SKIPPED
deriving DecidableEq, Repr, Inhabited

/-- `PreviousTask` of ai.service.ts: the history projection handed to the
plan calculator. -/
structure PreviousTask where
  title : String
  description : Option String
  date : ℤ
  difficulty : ℤ
  status : TaskStatus
deriving DecidableEq, Repr, Inhabited

/-- `AdaptiveStrategy` of ai.service.ts. -/
inductive AdaptiveStrategy
  | PROGRESSIVE
  | BALANCED
  | RECOVERY
  | RESET
  | INTERVENTION
deriving DecidableEq, Repr, Inhabited

/-- `AdaptivePlan` of ai.service.ts.  `finalDifficulty` is `Option ℤ`
because the source can produce `NaN` for it (see `adaptiveFromRecent`);
every non-`NaN` value it produces is an integer.  `finalTaskCount`,
`carryOverRatio`, `completionRatio` and `consecutiveMissedDays` are never
`NaN` in the source (their divisions are guarded), so they are plain. -/
structure AdaptivePlan where
  finalTaskCount : ℤ
  finalDifficulty : Option ℤ
  carryOverRatio : ℚ
  strategyName : AdaptiveStrategy
  completionRatio : ℚ
  consecutiveMissedDays : ℕ
deriving DecidableEq, Repr

/-- `Math.max` on possibly-`NaN` integers (`none` = `NaN`). -/
def omax (a b : Option ℤ) : Option ℤ :=
  match a, b with
  | some x, some y => some (max x y)
  | _, _ => none

/-- `Math.min` on possibly-`NaN` integers (`none` = `NaN`). -/
def omin (a b : Option ℤ) : Option ℤ :=
  match a, b with
  | some x, some y => some (min x y)
  | _, _ => none

/-- `Math.floor` on a possibly-`NaN` rational. -/
def ofloor (q : Option ℚ) : Option ℤ := q.map Rat.floor

/-- `Math.ceil` on a possibly-`NaN` rational. -/
def oceil (q : Option ℚ) : Option ℤ := q.map Rat.ceil

/-- `Math.round` (half-up) on a plain rational. -/
def jsRound (q : ℚ) : ℤ := Rat.floor (q + 1/2)

/-- `Math.round` on a possibly-`NaN` rational. -/
def oround (q : Option ℚ) : Option ℤ := q.map jsRound

/-- Subtraction of `1` on a possibly-`NaN` integer. -/
def osub1 (a : Option ℤ) : Option ℤ := a.map (fun x => x - 1)

/-- The recent-window predicate of the plan calculator:
`t.date >= THREE_DAYS_AGO` with `THREE_DAYS_AGO = addDays(-3, now)`. -/
def isRecent (now : ℤ) (t : PreviousTask) : Bool :=
  decide (now - 3 * dayMs ≤ t.date)

/-- One step of building the `tasksByDate` map: a key is appended the first
time it is seen (JS `Map` iteration order is insertion order). -/
def insertKey (ks : List ℤ) (k : ℤ) : List ℤ :=
  if k ∈ ks then ks else ks ++ [k]

/-- The keys of `tasksByDate` in insertion order. -/
def dayKeysOf (l : List PreviousTask) : List ℤ :=
  l.foldl (fun ks t => insertKey ks (dayKey t.date)) []

/-- The group `tasksByDate.get(k)`: tasks of day `k` in list order. -/
def tasksOnDay (l : List PreviousTask) (k : ℤ) : List PreviousTask :=
  l.filter (fun t => dayKey t.date == k)

/-- Insert into a descending-sorted list of day keys. -/
def insertDesc (x : ℤ) : List ℤ → List ℤ
  | [] => [x]
  | y :: ys => if y ≤ x then x :: y :: ys else y :: insertDesc x ys

/-- `sortedDays`: the day keys sorted descending, as done by
`.sort(([a],[b]) => b.localeCompare(a))` on ISO date strings. -/
def sortDesc (l : List ℤ) : List ℤ := l.foldr insertDesc []

/-- The consecutive fully-missed-day loop: walk the sorted days from the
most recent, count days whose tasks are all non-`COMPLETED`, stop at the
first day with a completion. -/
def countMissedRun (recent : List PreviousTask) : List ℤ → ℕ
  | [] => 0
  | k :: ks =>
    if (tasksOnDay recent k).all (fun t => !(t.status == .COMPLETED)) then
      1 + countMissedRun recent ks
    else 0

/-- The strategy-selection chain of `calculateAdaptivePlan` (the if/else
ladder assigning `strategyName`, `finalDifficulty`, `finalTaskCount`,
`carryOverRatio` before the final clamps), as a 4-tuple in that order. -/
def selectStrategy (consecutiveMissedDays : ℕ) (completionRat : ℚ)
    (avgDifficulty : Option ℚ) (avgTaskCount : ℚ) (daysUntilDeadline : ℤ) :
    AdaptiveStrategy × Option ℤ × ℤ × ℚ :=
  if 3 ≤ consecutiveMissedDays then
    (.INTERVENTION, omax (some 1) (osub1 (ofloor avgDifficulty)),
      max 1 (Rat.floor avgTaskCount - 1), 0.8)
  else if (0.8 : ℚ) ≤ completionRat then
    let urgencyMultiplier : ℚ :=
      if daysUntilDeadline ≤ 7 then 1.2
      else if daysUntilDeadline ≤ 30 then 1.1
      else 1
    (.PROGRESSIVE, omin (some 5) ((oceil avgDifficulty).map (fun x => x + 1)),
      min 6 (Rat.ceil (avgTaskCount * urgencyMultiplier) + 1), 0)
  else if (0.5 : ℚ) ≤ completionRat then
    (.BALANCED, oround avgDifficulty, jsRound avgTaskCount, 0.2)
  else if (0.2 : ℚ) ≤ completionRat then
    (.RECOVERY, omax (some 1) (osub1 (ofloor avgDifficulty)),
      max 1 (Rat.floor avgTaskCount), 0.5)
  else
    (.RESET, omax (some 1) (osub1 (ofloor avgDifficulty)),
      max 1 (Rat.floor avgTaskCount - 1), 0.7)

/-- Body of `calculateAdaptivePlan` on the filtered recent window
(source lines 339-448): completion ratio, missed-day run, the averages,
the strategy ladder and the final clamps. -/
def adaptiveFromRecent (recentTasks : List PreviousTask)
    (daysUntilDeadline : ℤ) : AdaptivePlan :=
  let completedCount := (recentTasks.filter (fun t => t.status == .COMPLETED)).length
  let totalTasks := recentTasks.length
  let completionRat : ℚ :=
    if 0 < totalTasks then (completedCount : ℚ) / (totalTasks : ℚ) else 0
  let keys := dayKeysOf recentTasks
  let sortedDays := sortDesc keys
  let consecutiveMissedDays := countMissedRun recentTasks sortedDays
  let sumDifficulty : ℚ := recentTasks.foldl (fun s t => s + (t.difficulty : ℚ)) 0
  -- `sum / recentTasks.length`: `0/0 = NaN` when the window is empty
  let avgDifficulty : Option ℚ :=
    if totalTasks = 0 then none else some (sumDifficulty / (totalTasks : ℚ))
  let groupTotal : ℕ := keys.foldl (fun s k => s + (tasksOnDay recentTasks k).length) 0
  let avgTaskCount : ℚ :=
    if 0 < keys.length then (groupTotal : ℚ) / (keys.length : ℚ) else 3
  let sel := selectStrategy consecutiveMissedDays completionRat avgDifficulty
    avgTaskCount daysUntilDeadline
  { finalTaskCount := max 1 (min 6 sel.2.2.1),
    finalDifficulty := omax (some 1) (omin (some 5) sel.2.1),
    carryOverRatio := max 0 (min 1 sel.2.2.2),
    strategyName := sel.1,
    completionRatio := completionRat,
    consecutiveMissedDays := consecutiveMissedDays }

/-- `calculateAdaptivePlan(previousTasks, daysUntilDeadline)` of
ai.service.ts.  The source reads the clock (`getCurrentDate`) to build the
3-day window; that read is the explicit `now` argument here. -/
def calculateAdaptivePlan (previousTasks : List PreviousTask)
    (daysUntilDeadline : ℤ) (now : ℤ) : AdaptivePlan :=
  if previousTasks = [] then
    { finalTaskCount := 3, finalDifficulty := some 2, carryOverRatio := 0,
      strategyName := .BALANCED, completionRatio := 0, consecutiveMissedDays := 0 }
  else
    adaptiveFromRecent (previousTasks.filter (isRecent now)) daysUntilDeadline

/-- The JS whitespace test used by `String.prototype.trim` (the source
strings only ever contain ASCII whitespace). -/
def isWs (c : Char) : Bool := c == ' ' || c == '\t' || c == '\n' || c == '\r'

/-- JS `String.prototype.trim`: strip whitespace from both ends. -/
def jsTrim (s : String) : String :=
  String.mk (((s.data.dropWhile isWs).reverse.dropWhile isWs).reverse)

/-- An item of the parsed generator response (`AITasksResponse.tasks`).
`none` in `title`/`description` models an absent JSON field; `difficulty`
is the JSON number when present (`none` = absent). -/
structure RawGeneratedTask where
  title : Option String
  description : Option String
  difficulty : Option ℚ
deriving DecidableEq, Repr, Inhabited

/-- `GeneratedTask` of ai.service.ts.  `difficulty` is `Option ℚ` because
`Math.max(1, Math.min(5, t.difficulty || finalDifficulty))` is `NaN` when
the item has no (or a zero) difficulty and `finalDifficulty` is `NaN`. -/
structure GeneratedTask where
  title : String
  description : Option String
  difficulty : Option ℚ
deriving DecidableEq, Repr, Inhabited

/-- JS `t.difficulty || finalDifficulty`: the right operand is used when
the left is absent (`undefined`) or `0`, the falsy numbers a parsed JSON
value can be. -/
def jsOrDifficulty (raw : Option ℚ) (fd : Option ℚ) : Option ℚ :=
  match raw with
  | some q => if q = 0 then fd else some q
  | none => fd

/-- `Math.min` on possibly-`NaN` rationals. -/
def oqmin (a b : Option ℚ) : Option ℚ :=
  match a, b with
  | some x, some y => some (min x y)
  | _, _ => none

/-- `Math.max` on possibly-`NaN` rationals. -/
def oqmax (a b : Option ℚ) : Option ℚ :=
  match a, b with
  | some x, some y => some (max x y)
  | _, _ => none

/-- The plan difficulty as a (possibly-`NaN`) JS number. -/
def fdQ (fd : Option ℤ) : Option ℚ :=
  match fd with
  | some d => some (d : ℚ)
  | none => none

/-- The sanitisation pipeline of `generateTasks` (source lines 591-600):
filter out items with an empty or whitespace-only (or absent) title, trim
title and description (an empty trimmed description becomes `null`), clamp
the difficulty, and `slice(0, finalCount)`. -/
def sanitizeTasks (parsed : List RawGeneratedTask) (finalCount : ℤ)
    (finalDifficulty : Option ℤ) : List GeneratedTask :=
  ((parsed.filter (fun t =>
      match t.title with
      | some s => !(jsTrim s == "")
      | none => false)).map (fun t =>
    { title := jsTrim (t.title.getD ""),
      description :=
        match t.description with
        | some s => if jsTrim s = "" then none else some (jsTrim s)
        | none => none,
      difficulty :=
        oqmax (some 1) (oqmin (some 5)
          (jsOrDifficulty t.difficulty (fdQ finalDifficulty))) })
  ).take finalCount.toNat

/-- The fixed template table of `getFallbackTasks`, keyed by the clamped
difficulty level 1-5. -/
def fallbackTemplates (key : ℤ) : List (String × String) :=
  if key = 1 then
    [("Take a small step towards your goal", "Spend 5-10 minutes on a simple task"),
     ("Review your goal and plan", "Reflect on your progress and next steps"),
     ("Do a quick practice session", "Focus on one aspect for 10 minutes")]
  else if key = 2 then
    [("Complete a focused work session", "Dedicate 20-30 minutes to your goal"),
     ("Practice key skills", "Work on fundamental techniques"),
     ("Review and apply learnings", "Apply what you have learned recently")]
  else if key = 3 then
    [("Deep work session", "Spend 45-60 minutes on focused work"),
     ("Tackle a challenging aspect", "Work on something that pushes you"),
     ("Complete a significant milestone", "Make substantial progress today")]
  else if key = 4 then
    [("Extended practice session", "Dedicate 1-2 hours to intensive work"),
     ("Challenge yourself significantly", "Push beyond your comfort zone"),
     ("Work on advanced techniques", "Focus on complex aspects of your goal")]
  else
    [("Major milestone work", "Dedicate 2+ hours to a significant achievement"),
     ("Complete a major project component", "Finish an important part of your goal"),
     ("Intensive focus session", "Deep, uninterrupted work on your goal")]

/-- Body of `getFallbackTasks(count, difficulty)` for a numeric (non-`NaN`)
difficulty: cycle through the template list modulo its length, appending
the `" (i+1)"` suffix for indices past the third (the template titles have
no edge whitespace, so the source's `.trim()` only removes the empty
suffix's separating space). -/
def getFallbackTasksInt (count : ℤ) (difficulty : ℤ) : List GeneratedTask :=
  let difficultyKey := max 1 (min 5 difficulty)
  let taskTemplates := fallbackTemplates difficultyKey
  (List.range count.toNat).map (fun i =>
    let template := taskTemplates.getD (i % taskTemplates.length) ("", "")
    { title := if 2 < i then template.1 ++ " (" ++ toString (i + 1) ++ ")" else template.1,
      description := some template.2,
      difficulty := some (difficulty : ℚ) })

/-- `getFallbackTasks` as called with a possibly-`NaN` difficulty.  A `NaN`
difficulty makes `templates[difficultyKey]` `undefined`, so the indexing on
the next line throws a `TypeError`; `none` models that throw. -/
def getFallbackTasks (count : ℤ) (difficulty : Option ℤ) :
    Option (List GeneratedTask) :=
  difficulty.map (fun d => getFallbackTasksInt count d)

/-- Outcome of the single external content-generation call inside
`generateTasks`: `failure` covers a network/API error, an empty response
and an unparseable or invalid-format response (all of which throw before
the sanitisation step); `success parsed` is a parsed `tasks` array. -/
inductive GenResult
  | failure
  | success (parsed : List RawGeneratedTask)
deriving DecidableEq, Repr, Inhabited

/-- `GoalSummary` of ai.service.ts (the deadline is the only field the
modelled logic reads; the text fields only feed the prompt). -/
structure GoalSummary where
  title : String
  description : Option String
  deadline : ℤ
  progress : ℤ
deriving DecidableEq, Repr, Inhabited

/-- `DateTimeService.getDaysDifference`: ceiling of the difference in
days. -/
def getDaysDifference (fromDate toDate : ℤ) : ℤ :=
  Rat.ceil (((toDate - fromDate : ℤ) : ℚ) / (86400000 : ℚ))

/-- `generateTasks(goalSummary, previousTasks, count, difficulty)` of
ai.service.ts.  `configured` is the `GEMINI_API_KEY`/model presence check,
`now` the clock reads, `gen` the outcome of the generation call.  The
try/catch of the source maps every internal throw (including the
`TypeError` of `getFallbackTasks` on a `NaN` difficulty) to the caller
fallback `getFallbackTasks(count, difficulty)`. -/
def generateTasks (configured : Bool) (goalSummary : GoalSummary)
    (previousTasks : List PreviousTask) (now : ℤ)
    (count : ℤ) (difficulty : ℤ) (gen : GenResult) : List GeneratedTask :=
  if configured = false then getFallbackTasksInt count difficulty
  else
    let daysUntilDeadline := getDaysDifference now goalSummary.deadline
    let adaptivePlan := calculateAdaptivePlan previousTasks daysUntilDeadline now
    match gen with
    | .failure => getFallbackTasksInt count difficulty
    | .success parsed =>
      let tasks := sanitizeTasks parsed adaptivePlan.finalTaskCount
        adaptivePlan.finalDifficulty
      if tasks = [] then
        match getFallbackTasks adaptivePlan.finalTaskCount adaptivePlan.finalDifficulty with
        | some fallback => fallback
        | none => getFallbackTasksInt count difficulty
      else if (tasks.length : ℤ) < adaptivePlan.finalTaskCount then
        match getFallbackTasks (adaptivePlan.finalTaskCount - tasks.length)
          adaptivePlan.finalDifficulty with
        | some fallback => tasks ++ fallback
        | none => getFallbackTasksInt count difficulty
      else tasks

/-- The `Goal` record as read by goal-tasks.service.ts. -/
structure Goal where
  id : String
  title : String
  description : Option String
  deadline : ℤ
  progress : ℤ
deriving DecidableEq, Repr, Inhabited

/-- A row of the `DailyTask` table.  `createdAt` is the creation instant,
monotone in insertion order. -/
structure DailyTask where
  goalId : String
  title : String
  description : Option String
  date : ℤ
  difficulty : ℤ
  status : TaskStatus
  createdAt : ℕ
deriving DecidableEq, Repr, Inhabited

/-- The storage collaborator's visible state.  The task table is kept in
insertion (= `createdAt`) order: every write of this service appends rows
with increasing `createdAt`, so a `findMany` ordered by `createdAt asc` is
a plain filter over the table. -/
structure Db where
  goals : List Goal
  dailyTasks : List DailyTask
  nextCreatedAt : ℕ
deriving DecidableEq, Repr, Inhabited

/-- The error taxonomy visible to callers of the goal-tasks service. -/
inductive ServiceError
  | notFound
  | persistenceFailure
deriving DecidableEq, Repr, Inhabited

/-- `setHours(0,0,0,0)` on a timestamp, under the UTC convention. -/
def startOfDay (now : ℤ) : ℤ := dayMs * Int.fdiv now dayMs

/-- The `where` clause of `getTodayTasks`: same goal, `date` in
`[today, tomorrow)`. -/
def todayTaskFilter (goalId : String) (today : ℤ) (t : DailyTask) : Bool :=
  t.goalId == goalId && (decide (today ≤ t.date) && decide (t.date < today + dayMs))

/-- `getTodayTasks(goalId)` of goal-tasks.service.ts: verify the goal and
return today's tasks ordered by `createdAt asc` (a filter, see `Db`). -/
def getTodayTasks (db : Db) (goalId : String) (now : ℤ) :
    Except ServiceError (List DailyTask) :=
  match db.goals.find? (fun g => g.id == goalId) with
  | none => .error .notFound
  | some _ => .ok (db.dailyTasks.filter (todayTaskFilter goalId (startOfDay now)))

/-- The projection `previousTasks.map(t => ({title, description, date,
difficulty, status}))` handed to the AI service. -/
def toPreviousTask (t : DailyTask) : PreviousTask :=
  ⟨t.title, t.description, t.date, t.difficulty, t.status⟩

/-- Insertion step of the `orderBy: { date: 'desc' }` read. -/
def insertDateDesc (t : DailyTask) : List DailyTask → List DailyTask
  | [] => [t]
  | u :: us => if u.date ≤ t.date then t :: u :: us else u :: insertDateDesc t us

/-- `orderBy: { date: 'desc' }` (order among equal dates is not specified
by the source; none of the modelled logic depends on it). -/
def sortDateDesc (l : List DailyTask) : List DailyTask :=
  l.foldr insertDateDesc []

/-- JS `x || d` on an integer: `d` exactly when `x = 0`. -/
def jsOrInt (x d : ℤ) : ℤ := if x = 0 then d else x

/-- `calculateTaskParameters(goal, previousTasks)` of
goal-tasks.service.ts (the legacy parameter derivation); `now` is the clock
read that produces `today`.  Returns `(count, difficulty)`. -/
def calculateTaskParameters (goal : Goal) (previousTasks : List DailyTask)
    (now : ℤ) : ℤ × ℤ :=
  let today := startOfDay now
  let daysUntilDeadline := Rat.ceil (((goal.deadline - today : ℤ) : ℚ) / (86400000 : ℚ))
  if previousTasks.length = 0 then (3, 1)
  else
    let keys := previousTasks.foldl (fun ks t => insertKey ks (dayKey t.date)) []
    -- `Array.from(keys).sort().reverse()[0]`: the most recent day
    let mostRecentDate := (sortDesc keys).headD 0
    let mostRecentTasks := previousTasks.filter (fun t => dayKey t.date == mostRecentDate)
    let completedCount := (mostRecentTasks.filter (fun t => t.status == .COMPLETED)).length
    let totalCount := mostRecentTasks.length
    let completionRate : ℚ :=
      if 0 < totalCount then (completedCount : ℚ) / (totalCount : ℚ) else 0
    let completedTasks := previousTasks.filter (fun t => t.status == .COMPLETED)
    let avgCompletedDifficulty : ℚ :=
      if 0 < completedTasks.length then
        (completedTasks.foldl (fun s t => s + (t.difficulty : ℚ)) 0) / (completedTasks.length : ℚ)
      else 1
    -- the (newCount, newDifficulty) assignments of the three branches
    let base : ℤ × ℤ :=
      if completionRate = 1 then
        ((totalCount : ℤ) + 1,
          min (jsOrInt ((mostRecentTasks.headD default).difficulty + 1) 1) 5)
      else if (0.7 : ℚ) ≤ completionRate then
        ((totalCount : ℤ), min (jsRound (avgCompletedDifficulty + 0.5)) 5)
      else
        ((totalCount : ℤ), max (jsRound avgCompletedDifficulty) 1)
    -- approaching-deadline adjustment
    let adjusted : ℤ × ℤ :=
      if daysUntilDeadline ≤ 7 ∧ 0 < daysUntilDeadline then
        (min (base.1 + 1) 8, min (base.2 + 1) 5)
      else base
    (max 2 (min adjusted.1 8), max 1 (min adjusted.2 5))

/-- `saveTasks(goalId, generatedTasks, difficulty)`: one insert per
generated task, stamped with today's date, the calculated difficulty and
`PENDING` status, with increasing `createdAt`. -/
def saveTasks (goalId : String) (generated : List GeneratedTask)
    (difficulty : ℤ) (now : ℤ) (baseCreatedAt : ℕ) : List DailyTask :=
  (generated.enum).map (fun p =>
    { goalId := goalId,
      title := p.2.title,
      description := p.2.description,
      date := startOfDay now,
      difficulty := difficulty,
      status := .PENDING,
      createdAt := baseCreatedAt + p.1 })

/-- `generateTasksForToday(goalId)` of goal-tasks.service.ts: verify the
goal, return today's tasks if any already exist, otherwise derive the
legacy parameters from all previous tasks, generate (with the AI service's
fallbacks) and persist.  The inner `getTodayTasks` call re-checks the goal;
that check cannot fail here, so the filter is used directly.  `persistOk`
models the persistence collaborator (`false` = the writes fail). -/
def generateTasksForToday (db : Db) (goalId : String) (now : ℤ)
    (configured : Bool) (gen : GenResult) (persistOk : Bool) :
    Except ServiceError (List DailyTask × Db) :=
  match db.goals.find? (fun g => g.id == goalId) with
  | none => .error .notFound
  | some goal =>
    let today := startOfDay now
    let existingTasks := db.dailyTasks.filter (todayTaskFilter goalId today)
    if 0 < existingTasks.length then .ok (existingTasks, db)
    else
      let previousTasks :=
        sortDateDesc (db.dailyTasks.filter (fun t => t.goalId == goalId && decide (t.date < today)))
      let taskParams := calculateTaskParameters goal previousTasks now
      let generatedTasks := generateTasks configured
        ⟨goal.title, goal.description, goal.deadline, goal.progress⟩
        (previousTasks.map toPreviousTask) now taskParams.1 taskParams.2 gen
      if persistOk then
        let newTasks := saveTasks goalId generatedTasks taskParams.2 now db.nextCreatedAt
        .ok (newTasks,
          { goals := db.goals,
            dailyTasks := db.dailyTasks ++ newTasks,
            nextCreatedAt := db.nextCreatedAt + newTasks.length })
      else .error .persistenceFailure

/-! ## Helper lemmas -/

theorem length_getFallbackTasksInt (c d : ℤ) :
    (getFallbackTasksInt c d).length = c.toNat := by
  simp [getFallbackTasksInt]

theorem getFallbackTasksInt_ne_nil {c : ℤ} (d : ℤ) (h : 1 ≤ c) :
    getFallbackTasksInt c d ≠ [] := by
  apply List.ne_nil_of_length_pos
  rw [length_getFallbackTasksInt]
  omega

theorem finalTaskCount_pos (p : List PreviousTask) (d now : ℤ) :
    1 ≤ (calculateAdaptivePlan p d now).finalTaskCount := by
  unfold calculateAdaptivePlan
  split
  · norm_num
  · simp only [adaptiveFromRecent]
    exact le_max_left _ _

theorem calculateTaskParameters_bounds (g : Goal) (prev : List DailyTask) (now : ℤ) :
    2 ≤ (calculateTaskParameters g prev now).1 ∧
    (calculateTaskParameters g prev now).1 ≤ 8 ∧
    1 ≤ (calculateTaskParameters g prev now).2 ∧
    (calculateTaskParameters g prev now).2 ≤ 5 := by
  unfold calculateTaskParameters
  split
  · norm_num
  · refine ⟨le_max_left _ _, max_le (by norm_num) (min_le_right _ _),
      le_max_left _ _, max_le (by norm_num) (min_le_right _ _)⟩

/-! ## Claim theorems

`decide` is used to evaluate the executable definitions on concrete
inputs; the Batteries rational operations are restored to their normal
reducibility inside this section so those evaluations can proceed. -/

section DecideEval

attribute [local semireducible] Rat.add Rat.mul Rat.inv Rat.sub Rat.ofScientific

/-- Claim C1 (code_bug evidence): on a non-empty history whose every task
is older than 3 days the recent window is empty, `avgDifficulty` is
`0/0 = NaN`, and the returned `finalDifficulty` is `NaN` (`none`) — outside
the claimed range `[1,5]` — while `finalTaskCount` and `carryOverRatio`
stay in bounds.  Input: one `PENDING` task dated day 5, clock at day 10,
`daysUntilDeadline = 10`. -/
theorem adaptive_plan_nan_on_stale_history :
    (calculateAdaptivePlan [⟨"stale", none, 432000000, 3, .PENDING⟩] 10 864000000).finalDifficulty
      = none ∧
    (calculateAdaptivePlan [⟨"stale", none, 432000000, 3, .PENDING⟩] 10 864000000).finalTaskCount
      = 2 ∧
    (calculateAdaptivePlan [⟨"stale", none, 432000000, 3, .PENDING⟩] 10 864000000).carryOverRatio
      = 0.7 := by
  decide

/-- Claim C2 (counterexample): `calculateAdaptivePlan` is not a function of
`(previousTasks, daysUntilDeadline)` alone — the same history and deadline
give different plans at two different clock readings (day 0 vs day 4),
because the clock decides the 3-day recent window. -/
theorem adaptive_plan_clock_dependent :
    calculateAdaptivePlan [⟨"done", none, 0, 2, .COMPLETED⟩] 10 0 ≠
    calculateAdaptivePlan [⟨"done", none, 0, 2, .COMPLETED⟩] 10 345600000 := by
  decide

/-- Claim C2 (amended): the calculator is deterministic in
`(previousTasks, daysUntilDeadline, now)`, and depends on the clock only
through the 3-day window filter: two clock readings that induce the same
filtered window yield identical plans. -/
theorem adaptive_plan_window_determined (tasks : List PreviousTask)
    (d n1 n2 : ℤ) (h : tasks.filter (isRecent n1) = tasks.filter (isRecent n2)) :
    calculateAdaptivePlan tasks d n1 = calculateAdaptivePlan tasks d n2 := by
  unfold calculateAdaptivePlan
  split
  · rfl
  · rw [h]

theorem adaptive_plan_window_determined_witness :
    calculateAdaptivePlan [⟨"w", none, 0, 2, .COMPLETED⟩] 5 0 =
    calculateAdaptivePlan [⟨"w", none, 0, 2, .COMPLETED⟩] 5 86400000 :=
  adaptive_plan_window_determined _ 5 0 86400000 (by decide)

/-- Claim C3: on an empty history the calculator returns exactly the
cold-start plan: 3 tasks, difficulty 2, no carry-over, `BALANCED`,
zero diagnostics. -/
theorem adaptive_plan_cold_start (d now : ℤ) :
    calculateAdaptivePlan [] d now =
      { finalTaskCount := 3, finalDifficulty := some 2, carryOverRatio := 0,
        strategyName := .BALANCED, completionRatio := 0,
        consecutiveMissedDays := 0 } := by
  rfl

/-- Claim C7: the legacy `calculateTaskParameters` returns `(3, 1)` on an
empty history, and on any non-empty history its count lies in `[2,8]` and
its difficulty in `[1,5]`. -/
theorem legacy_task_parameters_spec (g : Goal) (prev : List DailyTask) (now : ℤ) :
    (prev = [] → calculateTaskParameters g prev now = (3, 1)) ∧
    (prev ≠ [] →
      2 ≤ (calculateTaskParameters g prev now).1 ∧
      (calculateTaskParameters g prev now).1 ≤ 8 ∧
      1 ≤ (calculateTaskParameters g prev now).2 ∧
      (calculateTaskParameters g prev now).2 ≤ 5) := by
  constructor
  · intro h
    subst h
    rfl
  · intro _
    exact calculateTaskParameters_bounds g prev now

theorem legacy_task_parameters_spec_witness :
    calculateTaskParameters ⟨"g", "t", none, 7776000000, 0⟩ [] 0 = (3, 1) ∧
    (2 ≤ (calculateTaskParameters ⟨"g", "t", none, 7776000000, 0⟩
        [⟨"g", "a", none, -86400000, 2, .COMPLETED, 0⟩] 0).1 ∧
      (calculateTaskParameters ⟨"g", "t", none, 7776000000, 0⟩
        [⟨"g", "a", none, -86400000, 2, .COMPLETED, 0⟩] 0).1 ≤ 8 ∧
      1 ≤ (calculateTaskParameters ⟨"g", "t", none, 7776000000, 0⟩
        [⟨"g", "a", none, -86400000, 2, .COMPLETED, 0⟩] 0).2 ∧
      (calculateTaskParameters ⟨"g", "t", none, 7776000000, 0⟩
        [⟨"g", "a", none, -86400000, 2, .COMPLETED, 0⟩] 0).2 ≤ 5) :=
  ⟨(legacy_task_parameters_spec _ [] 0).1 rfl,
   (legacy_task_parameters_spec _ _ 0).2 (by decide)⟩

theorem selectStrategy_intervention (m : ℕ) (r : ℚ) (aD : Option ℚ) (aC : ℚ)
    (d : ℤ) (hm : 3 ≤ m) :
    (selectStrategy m r aD aC d).1 = .INTERVENTION ∧
    (selectStrategy m r aD aC d).2.2.2 = 0.8 := by
  rw [selectStrategy, if_pos hm]
  exact ⟨rfl, rfl⟩

theorem selectStrategy_chain (m : ℕ) (r : ℚ) (aD : Option ℚ) (aC : ℚ)
    (d : ℤ) (hm : m < 3) :
    (selectStrategy m r aD aC d).1 =
      if (0.8 : ℚ) ≤ r then .PROGRESSIVE
      else if (0.5 : ℚ) ≤ r then .BALANCED
      else if (0.2 : ℚ) ≤ r then .RECOVERY
      else .RESET := by
  rw [selectStrategy, if_neg (by omega : ¬ 3 ≤ m)]
  by_cases h8 : (0.8 : ℚ) ≤ r <;> by_cases h5 : (0.5 : ℚ) ≤ r <;>
    by_cases h2 : (0.2 : ℚ) ≤ r <;> simp [h8, h5, h2]

theorem adaptiveFromRecent_strategy (R : List PreviousTask) (d : ℤ) :
    (3 ≤ (adaptiveFromRecent R d).consecutiveMissedDays →
      (adaptiveFromRecent R d).strategyName = .INTERVENTION ∧
      (adaptiveFromRecent R d).carryOverRatio = 0.8) ∧
    ((adaptiveFromRecent R d).consecutiveMissedDays < 3 →
      (adaptiveFromRecent R d).strategyName =
        if (0.8 : ℚ) ≤ (adaptiveFromRecent R d).completionRatio then .PROGRESSIVE
        else if (0.5 : ℚ) ≤ (adaptiveFromRecent R d).completionRatio then .BALANCED
        else if (0.2 : ℚ) ≤ (adaptiveFromRecent R d).completionRatio then .RECOVERY
        else .RESET) := by
  unfold adaptiveFromRecent
  dsimp only
  constructor
  · intro hm
    refine ⟨(selectStrategy_intervention _ _ _ _ d hm).1, ?_⟩
    rw [(selectStrategy_intervention _ _ _ _ d hm).2]
    norm_num
  · intro hm
    exact selectStrategy_chain _ _ _ _ d hm

/-- Claim C4: for every non-empty history, if the derived
`consecutiveMissedDays` is at least 3 the strategy is `INTERVENTION` with
`carryOverRatio = 0.8` regardless of the completion ratio; otherwise the
strategy is the first of `PROGRESSIVE` (ratio ≥ 0.8), `BALANCED` (≥ 0.5),
`RECOVERY` (≥ 0.2), `RESET` whose threshold is met. -/
theorem adaptive_strategy_priority (tasks : List PreviousTask) (d now : ℤ)
    (h : tasks ≠ []) :
    (3 ≤ (calculateAdaptivePlan tasks d now).consecutiveMissedDays →
      (calculateAdaptivePlan tasks d now).strategyName = .INTERVENTION ∧
      (calculateAdaptivePlan tasks d now).carryOverRatio = 0.8) ∧
    ((calculateAdaptivePlan tasks d now).consecutiveMissedDays < 3 →
      (calculateAdaptivePlan tasks d now).strategyName =
        if (0.8 : ℚ) ≤ (calculateAdaptivePlan tasks d now).completionRatio then
          .PROGRESSIVE
        else if (0.5 : ℚ) ≤ (calculateAdaptivePlan tasks d now).completionRatio then
          .BALANCED
        else if (0.2 : ℚ) ≤ (calculateAdaptivePlan tasks d now).completionRatio then
          .RECOVERY
        else .RESET) := by
  have he : calculateAdaptivePlan tasks d now =
      adaptiveFromRecent (tasks.filter (isRecent now)) d := by
    unfold calculateAdaptivePlan
    rw [if_neg h]
  rw [he]
  exact adaptiveFromRecent_strategy _ d

theorem adaptive_strategy_priority_witness :
    (calculateAdaptivePlan
        [⟨"m1", none, 86400000, 2, .SKIPPED⟩, ⟨"m2", none, 172800000, 2, .SKIPPED⟩,
         ⟨"m3", none, 259200000, 2, .SKIPPED⟩] 10 259200005).strategyName
      = .INTERVENTION ∧
    (calculateAdaptivePlan
        [⟨"m1", none, 86400000, 2, .SKIPPED⟩, ⟨"m2", none, 172800000, 2, .SKIPPED⟩,
         ⟨"m3", none, 259200000, 2, .SKIPPED⟩] 10 259200005).carryOverRatio = 0.8 :=
  (adaptive_strategy_priority _ 10 259200005 (by decide)).1 (by decide)

/-- Spec-side trim pass over a raw generator item: trim the title (an
absent title becomes the empty string, which the next pass drops) and the
description (an empty trimmed description becomes `null`, as in the
source). -/
def trimItem (t : RawGeneratedTask) : RawGeneratedTask :=
  { title := some (jsTrim (t.title.getD "")),
    description :=
      match t.description with
      | some s => if jsTrim s = "" then none else some (jsTrim s)
      | none => none,
    difficulty := t.difficulty }

/-- Claim C6 as worded: trim, drop empty titles, clamp the returned
difficulty to `[1,5]` using `finalDifficulty` ONLY when the returned
difficulty is absent, truncate to `finalCount`. -/
def sanitizeSpecClaim (parsed : List RawGeneratedTask) (finalCount : ℤ)
    (finalDifficulty : Option ℤ) : List GeneratedTask :=
  (((parsed.map trimItem).filter (fun t => !(t.title.getD "" == ""))).map
    (fun t =>
      { title := t.title.getD "",
        description := t.description,
        difficulty :=
          oqmax (some 1) (oqmin (some 5)
            (match t.difficulty with
             | some q => some q
             | none => fdQ finalDifficulty)) })
  ).take finalCount.toNat

/-- Claim C6 amended: identical, except that `finalDifficulty` is used
when the returned difficulty is absent OR zero (any falsy value), which is
what `t.difficulty || finalDifficulty` does. -/
def sanitizeSpecAmended (parsed : List RawGeneratedTask) (finalCount : ℤ)
    (finalDifficulty : Option ℤ) : List GeneratedTask :=
  (((parsed.map trimItem).filter (fun t => !(t.title.getD "" == ""))).map
    (fun t =>
      { title := t.title.getD "",
        description := t.description,
        difficulty :=
          oqmax (some 1) (oqmin (some 5)
            (jsOrDifficulty t.difficulty (fdQ finalDifficulty))) })
  ).take finalCount.toNat

/-- Claim C6 (counterexample): an item returned with difficulty `0` is
given the plan difficulty (here 3) by the code, not its own clamped
difficulty (which would be 1) as the claim states. -/
theorem sanitize_zero_difficulty_counterexample :
    sanitizeTasks [⟨some "a", none, some 0⟩] 1 (some 3) ≠
    sanitizeSpecClaim [⟨some "a", none, some 0⟩] 1 (some 3) := by
  decide

/-- Claim C6 (amended): the sanitisation of `generateTasks` coincides with
the spec-worded pipeline once "absent" is widened to "absent or zero" in
the difficulty-defaulting rule. -/
theorem sanitize_matches_amended_spec (parsed : List RawGeneratedTask)
    (n : ℤ) (fd : Option ℤ) :
    sanitizeTasks parsed n fd = sanitizeSpecAmended parsed n fd := by
  unfold sanitizeTasks sanitizeSpecAmended
  congr 1
  induction parsed with
  | nil => rfl
  | cons t ts ih =>
    have h0 : jsTrim "" = "" := rfl
    cases ht : t.title with
    | none => simp [trimItem, ht, h0, ih]
    | some s =>
      by_cases hs : jsTrim s = "" <;> simp [trimItem, ht, hs, ih]

/-- Claim C5 (code_bug evidence): with the stale history of claim C1 the
plan has `finalTaskCount = 2` but `finalDifficulty = NaN`; when the
generator returns a single valid item, filling the shortfall calls
`getFallbackTasks(1, NaN)`, which throws, and the catch returns the
caller-parameter fallback — 3 tasks, not the plan's 2. -/
theorem composer_length_violation_on_stale_history :
    (generateTasks true ⟨"g", none, 1728000000, 0⟩
        [⟨"stale2", none, 432000000, 3, .PENDING⟩] 864000000 3 1
        (.success [⟨some "x", none, some 2⟩])).length = 3 ∧
    (calculateAdaptivePlan [⟨"stale2", none, 432000000, 3, .PENDING⟩]
        (getDaysDifference 864000000 1728000000) 864000000).finalTaskCount = 2 := by
  constructor
  · decide
  · decide

theorem mem_getFallbackTasksInt_difficulty {c d : ℤ} {t : GeneratedTask}
    (ht : t ∈ getFallbackTasksInt c d) : t.difficulty = some (d : ℚ) := by
  simp only [getFallbackTasksInt, List.mem_map] at ht
  obtain ⟨i, _, rfl⟩ := ht
  rfl

/-- Claim C10: on the not-configured and generation-failure paths the
output is exactly the caller-parameter fallback — independent of the goal,
the history and the clock (so no adaptive plan influences it) — with
`count` tasks, each carrying the caller difficulty. -/
theorem fallback_paths_use_caller_params :
    (∀ (gs : GoalSummary) (prev : List PreviousTask) (now count difficulty : ℤ)
        (gen : GenResult),
      generateTasks false gs prev now count difficulty gen =
        getFallbackTasksInt count difficulty) ∧
    (∀ (gs : GoalSummary) (prev : List PreviousTask) (now count difficulty : ℤ),
      generateTasks true gs prev now count difficulty .failure =
        getFallbackTasksInt count difficulty) ∧
    (∀ count difficulty : ℤ,
      (getFallbackTasksInt count difficulty).length = count.toNat) ∧
    (∀ count difficulty : ℤ, ∀ t ∈ getFallbackTasksInt count difficulty,
      t.difficulty = some (difficulty : ℚ)) :=
  ⟨fun _ _ _ _ _ _ => rfl, fun _ _ _ _ _ => rfl,
   fun c d => length_getFallbackTasksInt c d,
   fun _ _ _ ht => mem_getFallbackTasksInt_difficulty ht⟩

theorem fallback_paths_use_caller_params_witness :
    generateTasks false ⟨"g", none, 0, 0⟩ [] 0 4 2 .failure =
      getFallbackTasksInt 4 2 ∧
    generateTasks true ⟨"g", none, 0, 0⟩ [] 0 4 2 .failure =
      getFallbackTasksInt 4 2 ∧
    (getFallbackTasksInt 4 2).length = 4 ∧
    ((getFallbackTasksInt 4 2).headD default).difficulty = some 2 :=
  ⟨fallback_paths_use_caller_params.1 _ [] 0 4 2 .failure,
   fallback_paths_use_caller_params.2.1 _ [] 0 4 2,
   fallback_paths_use_caller_params.2.2.1 4 2,
   fallback_paths_use_caller_params.2.2.2 4 2 _ (by decide)⟩

theorem getFallbackTasks_eq_some {c : ℤ} {fd : Option ℤ}
    {l : List GeneratedTask} (h : getFallbackTasks c fd = some l) :
    ∃ d, fd = some d ∧ l = getFallbackTasksInt c d := by
  cases fd with
  | none => simp [getFallbackTasks] at h
  | some d =>
    refine ⟨d, rfl, ?_⟩
    simpa [getFallbackTasks] using h.symm

theorem generateTasks_ne_nil (cfg : Bool) (gs : GoalSummary)
    (prev : List PreviousTask) (now : ℤ) {count : ℤ} (difficulty : ℤ)
    (gen : GenResult) (h : 1 ≤ count) :
    generateTasks cfg gs prev now count difficulty gen ≠ [] := by
  unfold generateTasks
  split
  · exact getFallbackTasksInt_ne_nil difficulty h
  · cases gen with
    | failure => exact getFallbackTasksInt_ne_nil difficulty h
    | success parsed =>
      dsimp only
      split
      · split
        next fb hfb =>
          obtain ⟨d, _, rfl⟩ := getFallbackTasks_eq_some hfb
          exact getFallbackTasksInt_ne_nil d (finalTaskCount_pos prev _ now)
        next hfb => exact getFallbackTasksInt_ne_nil difficulty h
      · next hnil =>
        split
        · split
          next fb hfb => simp [hnil]
          next hfb => exact getFallbackTasksInt_ne_nil difficulty h
        · exact hnil

/-- Claim C8: generator failures never propagate — an unconfigured or
failing generation call still returns a fallback task list; a request for
a nonexistent goal yields `NotFound`; a request for an existing goal with
working persistence returns a non-empty task batch whatever the generator
does. -/
theorem generator_failures_never_propagate :
    (∀ (gs : GoalSummary) (prev : List PreviousTask) (now count difficulty : ℤ)
        (gen : GenResult),
      generateTasks false gs prev now count difficulty gen =
        getFallbackTasksInt count difficulty) ∧
    (∀ (gs : GoalSummary) (prev : List PreviousTask) (now count difficulty : ℤ),
      generateTasks true gs prev now count difficulty .failure =
        getFallbackTasksInt count difficulty) ∧
    (∀ (db : Db) (goalId : String) (now : ℤ) (cfg : Bool) (gen : GenResult)
        (persistOk : Bool),
      db.goals.find? (fun g => g.id == goalId) = none →
      generateTasksForToday db goalId now cfg gen persistOk = .error .notFound) ∧
    (∀ (db : Db) (goalId : String) (now : ℤ) (cfg : Bool) (gen : GenResult)
        (goal : Goal),
      db.goals.find? (fun g => g.id == goalId) = some goal →
      ∃ out db1, generateTasksForToday db goalId now cfg gen true =
        .ok (out, db1) ∧ out ≠ []) := by
  refine ⟨fun _ _ _ _ _ _ => rfl, fun _ _ _ _ _ => rfl, ?_, ?_⟩
  · intro db goalId now cfg gen persistOk hfind
    unfold generateTasksForToday
    rw [hfind]
  · intro db goalId now cfg gen goal hfind
    unfold generateTasksForToday
    rw [hfind]
    dsimp only
    split
    · next hex => exact ⟨_, db, rfl, List.ne_nil_of_length_pos hex⟩
    · next hex =>
      refine ⟨_, _, rfl, ?_⟩
      have hcount := (calculateTaskParameters_bounds goal
        (sortDateDesc (db.dailyTasks.filter
          (fun t => t.goalId == goalId && decide (t.date < startOfDay now)))) now).1
      intro hnil
      refine generateTasks_ne_nil cfg _ _ now _ gen ?_
        (by simpa [saveTasks] using hnil)
      omega

theorem generator_failures_never_propagate_witness :
    generateTasks false ⟨"t", none, 0, 0⟩ [] 0 3 1 .failure =
      getFallbackTasksInt 3 1 ∧
    generateTasks true ⟨"t", none, 0, 0⟩ [] 0 3 1 .failure =
      getFallbackTasksInt 3 1 ∧
    generateTasksForToday ⟨[], [], 0⟩ "g" 0 false .failure true =
      .error .notFound ∧
    ∃ out db1,
      generateTasksForToday ⟨[⟨"g", "t", none, 7776000000, 0⟩], [], 0⟩ "g" 0
        false .failure true = .ok (out, db1) ∧ out ≠ [] :=
  ⟨generator_failures_never_propagate.1 _ [] 0 3 1 .failure,
   generator_failures_never_propagate.2.1 _ [] 0 3 1,
   generator_failures_never_propagate.2.2.1 _ "g" 0 false .failure true rfl,
   generator_failures_never_propagate.2.2.2 _ "g" 0 false .failure
     ⟨"g", "t", none, 7776000000, 0⟩ rfl⟩

theorem saveTasks_today_filter (goalId : String)
    (generated : List GeneratedTask) (difficulty now : ℤ) (base : ℕ) :
    (saveTasks goalId generated difficulty now base).filter
      (todayTaskFilter goalId (startOfDay now)) =
    saveTasks goalId generated difficulty now base := by
  apply List.filter_eq_self.mpr
  intro t ht
  simp only [saveTasks, List.mem_map] at ht
  obtain ⟨p, _, rfl⟩ := ht
  simp [todayTaskFilter, dayMs]

theorem saveTasks_ne_nil {goalId : String} {generated : List GeneratedTask}
    {difficulty now : ℤ} {base : ℕ} (h : generated ≠ []) :
    saveTasks goalId generated difficulty now base ≠ [] := by
  simp [saveTasks, h]

/-- Claim C9: generation for today is idempotent per (goal, day).  If a
run returns `ok (out, db1)`, any sequential re-run against `db1` on the
same day — with any generator configuration, generator outcome and
persistence behaviour — returns the same task set `out` and leaves the
state `db1` unchanged, creating no records. -/
theorem generate_today_idempotent (db : Db) (goalId : String) (now : ℤ)
    (c1 : Bool) (g1 : GenResult) (p1 : Bool) (c2 : Bool) (g2 : GenResult)
    (p2 : Bool) (out : List DailyTask) (db1 : Db)
    (h : generateTasksForToday db goalId now c1 g1 p1 = .ok (out, db1)) :
    generateTasksForToday db1 goalId now c2 g2 p2 = .ok (out, db1) := by
  unfold generateTasksForToday at h ⊢
  cases hfind : db.goals.find? (fun g => g.id == goalId) with
  | none =>
    rw [hfind] at h
    exact absurd h (by simp)
  | some goal =>
    rw [hfind] at h
    dsimp only at h
    by_cases hex :
        0 < (db.dailyTasks.filter (todayTaskFilter goalId (startOfDay now))).length
    · rw [if_pos hex] at h
      simp only [Except.ok.injEq, Prod.mk.injEq] at h
      obtain ⟨h1, h2⟩ := h
      subst h2
      subst h1
      rw [hfind]
      dsimp only
      rw [if_pos hex]
    · rw [if_neg hex] at h
      cases p1 with
      | false => exact absurd h (by simp)
      | true =>
        rw [if_pos rfl] at h
        simp only [Except.ok.injEq, Prod.mk.injEq] at h
        obtain ⟨h1, h2⟩ := h
        subst h2
        subst h1
        rw [hfind]
        dsimp only
        have hempty : db.dailyTasks.filter (todayTaskFilter goalId (startOfDay now)) = [] :=
          List.length_eq_zero.mp (by omega)
        rw [List.filter_append, hempty, List.nil_append, saveTasks_today_filter]
        have hcount := (calculateTaskParameters_bounds goal
          (sortDateDesc (db.dailyTasks.filter
            (fun t => t.goalId == goalId && decide (t.date < startOfDay now)))) now).1
        have hne : saveTasks goalId
            (generateTasks c1 ⟨goal.title, goal.description, goal.deadline, goal.progress⟩
              ((sortDateDesc (db.dailyTasks.filter
                (fun t => t.goalId == goalId && decide (t.date < startOfDay now)))).map
                toPreviousTask)
              now
              (calculateTaskParameters goal
                (sortDateDesc (db.dailyTasks.filter
                  (fun t => t.goalId == goalId && decide (t.date < startOfDay now)))) now).1
              (calculateTaskParameters goal
                (sortDateDesc (db.dailyTasks.filter
                  (fun t => t.goalId == goalId && decide (t.date < startOfDay now)))) now).2
              g1)
            (calculateTaskParameters goal
              (sortDateDesc (db.dailyTasks.filter
                (fun t => t.goalId == goalId && decide (t.date < startOfDay now)))) now).2
            now db.nextCreatedAt ≠ [] :=
          saveTasks_ne_nil (generateTasks_ne_nil c1 _ _ now _ g1 (by omega))
        rw [if_pos (List.length_pos.mpr hne)]

theorem generate_today_idempotent_witness :
    generateTasksForToday
      ⟨[⟨"g", "t", none, 7776000000, 0⟩],
       [⟨"g", "Take a small step towards your goal",
          some "Spend 5-10 minutes on a simple task", 0, 1, .PENDING, 0⟩,
        ⟨"g", "Review your goal and plan",
          some "Reflect on your progress and next steps", 0, 1, .PENDING, 1⟩,
        ⟨"g", "Do a quick practice session",
          some "Focus on one aspect for 10 minutes", 0, 1, .PENDING, 2⟩], 3⟩
      "g" 0 true (.success []) false =
    .ok ([⟨"g", "Take a small step towards your goal",
            some "Spend 5-10 minutes on a simple task", 0, 1, .PENDING, 0⟩,
          ⟨"g", "Review your goal and plan",
            some "Reflect on your progress and next steps", 0, 1, .PENDING, 1⟩,
          ⟨"g", "Do a quick practice session",
            some "Focus on one aspect for 10 minutes", 0, 1, .PENDING, 2⟩],
         ⟨[⟨"g", "t", none, 7776000000, 0⟩],
          [⟨"g", "Take a small step towards your goal",
             some "Spend 5-10 minutes on a simple task", 0, 1, .PENDING, 0⟩,
           ⟨"g", "Review your goal and plan",
             some "Reflect on your progress and next steps", 0, 1, .PENDING, 1⟩,
           ⟨"g", "Do a quick practice session",
             some "Focus on one aspect for 10 minutes", 0, 1, .PENDING, 2⟩], 3⟩) :=
  generate_today_idempotent ⟨[⟨"g", "t", none, 7776000000, 0⟩], [], 0⟩ "g" 0
    false .failure true true (.success []) false _ _ (by rfl)

end DecideEval

end Reflection
